import Mathlib

/-!
Shallow embedding of the local service supervision subsystem of
`src/src/zenml/services/local/local_service.py` (port allocation, HTTP endpoint
health monitoring, and the local daemon service life-cycle), together with
theorems settling the specification claims about it.

External effects are modelled by explicit oracles and logs:
* TCP port availability (`port_is_available`, a real socket bind in the source)
  becomes an oracle `avail : Nat -> Bool`;
* `psutil.pid_exists` becomes an oracle `pid_exists : Nat -> Bool`;
* HTTP requests become an oracle plus a request log on an `HttpWorld` record;
* process spawning and signalling become logs on an `OSWorld` record.

Python truthiness of optional values (`if self.config.port:` is false for both
`None` and `0`) is made explicit through the `truthy*` helpers.
-/

namespace ZenmlLocal

/-- Modelled from the spec: the `ServiceState` lifecycle enum defined in
`zenml/services/base_service.py`, which is not under `src/`.  The spec lists
the states `INACTIVE`, `STARTING`, `ACTIVE`, `ERROR`. -/
inductive ServiceState where
  | inactive
  | starting
  | active
  | error
deriving DecidableEq, Repr

/-- Modelled from the spec: the `ServiceEndpointProtocol` enum defined in
`zenml/services/base_service.py`, which is not under `src/`.  The spec lists
`TCP`/`HTTP`/other desired protocols; the source file only ever uses the
`TCP` member (`LocalDaemonServiceEndpointConfig.protocol` defaults to it). -/
inductive ServiceEndpointProtocol where
  | tcp
  | http
deriving DecidableEq, Repr

/-- Python truthiness of an `Optional[int]`: `None` and `0` are falsy. -/
def truthyNat : Option Nat → Bool
  | none => false
  | some n => decide (n ≠ 0)

/-- Python truthiness of an `Optional[bool]`: `None` and `False` are falsy. -/
def truthyBool : Option Bool → Bool
  | none => false
  | some b => b

/-- Python truthiness of an `Optional[str]`: `None` and `""` are falsy. -/
def truthyStr : Option String → Bool
  | none => false
  | some s => decide (s ≠ "")

/-- `SERVICE_PORT_RANGE = (8000, 65535)` — the fallback scan range, used as
`range(*SERVICE_PORT_RANGE)` so the lower bound is inclusive and the upper
bound exclusive. -/
def SERVICE_PORT_RANGE : Nat × Nat := (8000, 65535)

/-- `LocalDaemonServiceEndpointConfig`: preferred `port` (optional),
`allocate_port` flag (default `True`), desired `protocol` (default TCP). -/
structure LocalDaemonServiceEndpointConfig where
  protocol : Option ServiceEndpointProtocol := some .tcp
  port : Option Nat := none
  allocate_port : Option Bool := some true
deriving DecidableEq, Repr

/-- Modelled from the spec: the base `ServiceEndpointStatus` record defined in
`zenml/services/base_service.py`, which is not under `src/`.  The spec lists
the observed fields protocol, hostname, port and uri
(`LocalDaemonServiceEndpointStatus` in the source adds nothing to it). -/
structure ServiceEndpointStatus where
  protocol : Option ServiceEndpointProtocol := none
  hostname : Option String := none
  port : Option Nat := none
  uri : Option String := none
deriving DecidableEq, Repr

/-- The errors `_lookup_free_port` can raise.  `portNotAvailable p` stands for
`IOError(f"TCP port {port} is not available.")` and `noFreePorts lo hi` for
`IOError("No free TCP ports found in the range %d - %d", lo, hi)` (the source
passes the bounds as extra `IOError` arguments without formatting them into
the message). -/
inductive PortLookupError where
  | portNotAvailable (port : Nat)
  | noFreePorts (lo hi : Nat)
deriving DecidableEq, Repr

/-- The message (first `IOError` argument) of a `PortLookupError`, exactly as
built in the source. -/
def PortLookupError.message : PortLookupError → String
  | .portNotAvailable port => "TCP port " ++ toString port ++ " is not available."
  | .noFreePorts _ _ => "No free TCP ports found in the range %d - %d"

/-- The `for port in range(lo, lo + fuel)` scan at the end of
`_lookup_free_port`: return the first port the availability check accepts,
ascending, or `none` when the range is exhausted. -/
def scan_port_range (avail : Nat → Bool) : Nat → Nat → Option Nat
  | _, 0 => none
  | lo, fuel + 1 => if avail lo then some lo else scan_port_range avail (lo + 1) fuel

/-- The tail of `_lookup_free_port` after the preferred-port block: reuse the
port recorded in the endpoint status when it is free, else scan
`SERVICE_PORT_RANGE` ascending, else raise. -/
def lookup_free_port_tail (avail : Nat → Bool) (status : ServiceEndpointStatus) :
    Except PortLookupError Nat :=
  if truthyNat status.port ∧ avail (status.port.getD 0) then
    .ok (status.port.getD 0)
  else
    match scan_port_range avail SERVICE_PORT_RANGE.1
        (SERVICE_PORT_RANGE.2 - SERVICE_PORT_RANGE.1) with
    | some port => .ok port
    | none => .error (.noFreePorts SERVICE_PORT_RANGE.1 SERVICE_PORT_RANGE.2)

/-- `LocalDaemonServiceEndpoint._lookup_free_port`, with the socket-based
`port_is_available` check abstracted into the oracle `avail`. -/
def lookup_free_port (avail : Nat → Bool) (config : LocalDaemonServiceEndpointConfig)
    (status : ServiceEndpointStatus) : Except PortLookupError Nat :=
  if truthyNat config.port then
    if avail (config.port.getD 0) then
      .ok (config.port.getD 0)
    else if ¬ truthyBool config.allocate_port then
      .error (.portNotAvailable (config.port.getD 0))
    else
      lookup_free_port_tail avail status
  else
    lookup_free_port_tail avail status

/-- `LocalDaemonServiceEndpoint.prepare_for_start`: set the status protocol
and hostname, then record the allocated port (an allocation error
propagates). -/
def prepare_for_start (avail : Nat → Bool) (config : LocalDaemonServiceEndpointConfig)
    (status : ServiceEndpointStatus) : Except PortLookupError ServiceEndpointStatus :=
  let status1 := { status with protocol := config.protocol, hostname := some "localhost" }
  match lookup_free_port avail config status1 with
  | .ok port => .ok { status1 with port := some port }
  | .error e => .error e

/-- `DEFAULT_HTTP_HEALTHCHECK_TIMEOUT = 5`. -/
def DEFAULT_HTTP_HEALTHCHECK_TIMEOUT : Nat := 5

/-- `HttpEndpointHealthMonitorConfig`: optional healthcheck URI subpath,
expected HTTP status code (default 200), request timeout (default 5s). -/
structure HttpEndpointHealthMonitorConfig where
  healthcheck_uri_path : Option String := none
  http_status_code : Option Nat := some 200
  http_timeout : Option Nat := some DEFAULT_HTTP_HEALTHCHECK_TIMEOUT
deriving DecidableEq, Repr

/-- What a `requests.head` call can come back with: a response carrying a
status code, or one of the three exception classes the source catches
(`requests.ConnectionError`, `requests.Timeout`, `requests.RequestException`),
each carrying its `str(e)` text. -/
inductive HttpResult where
  | response (status_code : Nat)
  | connectionError (text : String)
  | timeout (text : String)
  | requestException (text : String)
deriving DecidableEq, Repr

/-- The HTTP side of the outside world: an oracle giving the outcome of a
`requests.head` call on a URI, and a log of the network calls made. -/
structure HttpWorld where
  respond : String → HttpResult
  requests : List String := []

/-- `HttpEndpointHealthMonitor.get_healthcheck_uri`: `None` when the endpoint
status has no truthy URI, else the status URI with the configured subpath (or
`"/"`) appended. -/
def get_healthcheck_uri (config : HttpEndpointHealthMonitorConfig)
    (status : ServiceEndpointStatus) : Option String :=
  if truthyStr status.uri then
    some ((status.uri.getD "") ++
      (if truthyStr config.healthcheck_uri_path then config.healthcheck_uri_path.getD "" else "/"))
  else
    none

/-- `HttpEndpointHealthMonitor.check_endpoint_status`: no resolvable URI gives
`(ERROR, "No healthcheck URI available")` with no network call; otherwise a
HEAD request is issued (logged in the world) and its outcome classified. -/
def check_endpoint_status (w : HttpWorld) (config : HttpEndpointHealthMonitorConfig)
    (status : ServiceEndpointStatus) : HttpWorld × ServiceState × Option String :=
  match get_healthcheck_uri config status with
  | none => (w, ServiceState.error, some "No healthcheck URI available")
  | some check_uri =>
    let w1 : HttpWorld := { w with requests := w.requests ++ [check_uri] }
    match w.respond check_uri with
    | .response code =>
      if some code = config.http_status_code then
        (w1, ServiceState.active, none)
      else
        (w1, ServiceState.error,
          some ("service endpoint healthcheck returned HTTP status code " ++ toString code))
    | .connectionError text =>
      (w1, ServiceState.error, some ("cannot connect to service API: " ++ text))
    | .timeout text =>
      (w1, ServiceState.error, some ("service API healthcheck request timed out: " ++ text))
    | .requestException text =>
      (w1, ServiceState.error,
        some ("unexpected error encountered while checking the service API status: " ++ text))

/-- `LocalDaemonServiceStatus`: the mutable service status; its daemon-specific
field is the optional `pid` of the daemon process (the base `ServiceStatus`
lifecycle fields live in `zenml/services/base_service.py` and are not touched
by any function embedded here). -/
structure LocalDaemonServiceStatus where
  pid : Option Nat := none
deriving DecidableEq, Repr

/-- A local daemon service endpoint: its config, its mutable status and its
attached HTTP health monitor (the spec invariant gives an endpoint exactly one
monitor). -/
structure LocalDaemonServiceEndpoint where
  config : LocalDaemonServiceEndpointConfig
  status : ServiceEndpointStatus
  monitor : HttpEndpointHealthMonitorConfig
deriving DecidableEq, Repr

/-- A local daemon service: its mutable status and its optional endpoint. -/
structure LocalDaemonService where
  status : LocalDaemonServiceStatus
  endpoint : Option LocalDaemonServiceEndpoint
deriving DecidableEq, Repr

/-- The POSIX signals `_stop_daemon` can send. -/
inductive DaemonSignal where
  | sigint
  | sigkill
deriving DecidableEq, Repr

/-- A record of one `subprocess.Popen` call: the pid of the spawned child and
whether `start_new_session` was set (detaching it into its own session /
process group). -/
structure SpawnRecord where
  pid : Nat
  start_new_session : Bool
deriving DecidableEq, Repr

/-- The OS side of the outside world: the `psutil.pid_exists` and
`os.getpgid` oracles, the TCP port availability oracle backing
`port_is_available`, the pid the next `Popen` call will produce, and logs of
the processes spawned and the `os.killpg` signals sent. -/
structure OSWorld where
  pid_exists : Nat → Bool
  getpgid : Nat → Nat
  avail : Nat → Bool
  next_pid : Nat
  spawned : List SpawnRecord := []
  signals : List (Nat × DaemonSignal) := []

/-- `LocalDaemonService.check_status`: `(ERROR, "service daemon is not
running")` when no pid is recorded or the OS does not report the process as
existing, else `(ACTIVE, None)`.  The service status is returned alongside
the result to make explicit that the method does not write to it. -/
def check_status (pid_exists : Nat → Bool) (status : LocalDaemonServiceStatus) :
    LocalDaemonServiceStatus × ServiceState × Option String :=
  if ¬ truthyNat status.pid ∨ ¬ pid_exists (status.pid.getD 0) then
    (status, ServiceState.error, some "service daemon is not running")
  else
    (status, ServiceState.active, none)

/-- `LocalDaemonService._start_daemon`: when the recorded pid belongs to a
currently-existing process, clear the pid and return without touching the
endpoint or spawning anything; otherwise run the endpoint's
`prepare_for_start` (when an endpoint exists), spawn the daemon command with
`start_new_session=True` and record the child pid. -/
def start_daemon (w : OSWorld) (svc : LocalDaemonService) :
    Except PortLookupError (OSWorld × LocalDaemonService) :=
  if truthyNat svc.status.pid ∧ w.pid_exists (svc.status.pid.getD 0) then
    .ok (w, { svc with status := { svc.status with pid := none } })
  else
    let prepared : Except PortLookupError (Option LocalDaemonServiceEndpoint) :=
      match svc.endpoint with
      | some ep =>
        match prepare_for_start w.avail ep.config ep.status with
        | .ok st => .ok (some { ep with status := st })
        | .error e => .error e
      | none => .ok none
    match prepared with
    | .error e => .error e
    | .ok ep1 =>
      let child := w.next_pid
      .ok ({ w with next_pid := w.next_pid + 1,
                    spawned := w.spawned ++ [⟨child, true⟩] },
           { svc with endpoint := ep1,
                      status := { svc.status with pid := some child } })

/-- `LocalDaemonService._stop_daemon`: when no pid is recorded or the process
no longer exists, clear the pid and return; otherwise resolve the process
group of the pid and send `SIGINT` (or `SIGKILL` when `force` is truthy) to
the whole group, leaving the recorded pid in place. -/
def stop_daemon (w : OSWorld) (svc : LocalDaemonService) (force : Option Bool) :
    OSWorld × LocalDaemonService :=
  if ¬ truthyNat svc.status.pid ∨ ¬ w.pid_exists (svc.status.pid.getD 0) then
    (w, { svc with status := { svc.status with pid := none } })
  else
    let pgrp := w.getpgid (svc.status.pid.getD 0)
    let s := if truthyBool force then DaemonSignal.sigkill else DaemonSignal.sigint
    ({ w with signals := w.signals ++ [(pgrp, s)] }, svc)

/-- `LocalDaemonService.provision`: delegates to `_start_daemon`. -/
def provision (w : OSWorld) (svc : LocalDaemonService) :
    Except PortLookupError (OSWorld × LocalDaemonService) :=
  start_daemon w svc

/-- `LocalDaemonService.deprovision`: delegates to `_stop_daemon` (the
`force` argument defaults to `False` in the source). -/
def deprovision (w : OSWorld) (svc : LocalDaemonService) (force : Option Bool) :
    OSWorld × LocalDaemonService :=
  stop_daemon w svc force

/-- Modelled from the spec: the service-level `check_status` of
`zenml/services/base_service.py`, which is not under `src/`, combining the
daemon liveness check with the endpoint health probe.  Spec rule: if the
process is not alive, report `ERROR` immediately without probing the
endpoint; if alive but the endpoint is unhealthy, still `ERROR` with the
endpoint monitor's message; only alive-and-healthy, or alive with no
endpoint, yields `ACTIVE`.  The liveness part and the probe are the
source-derived `check_status` and `check_endpoint_status`. -/
def service_check_status (pid_exists : Nat → Bool) (hw : HttpWorld)
    (svc : LocalDaemonService) : HttpWorld × ServiceState × Option String :=
  match check_status pid_exists svc.status with
  | (_, ServiceState.active, _) =>
    match svc.endpoint with
    | none => (hw, ServiceState.active, none)
    | some ep => check_endpoint_status hw ep.monitor ep.status
  | (_, st, msg) => (hw, st, msg)

/-! ## Helper lemmas about the fallback port scan -/

theorem scan_port_range_spec (avail : Nat → Bool) :
    ∀ fuel lo p, scan_port_range avail lo fuel = some p →
      avail p = true ∧ lo ≤ p ∧ p < lo + fuel ∧
      ∀ q, lo ≤ q → q < p → avail q = false := by
  intro fuel
  induction fuel with
  | zero => intro lo p h; simp [scan_port_range] at h
  | succ n ih =>
    intro lo p h
    by_cases hl : avail lo = true
    · simp [scan_port_range, hl] at h
      subst h
      exact ⟨hl, Nat.le_refl _, by omega, fun q hq1 hq2 => absurd hq1 (by omega)⟩
    · rw [Bool.not_eq_true] at hl
      simp [scan_port_range, hl] at h
      obtain ⟨ha, h1, h2, h3⟩ := ih (lo + 1) p h
      refine ⟨ha, by omega, by omega, fun q hq1 hq2 => ?_⟩
      rcases Nat.eq_or_lt_of_le hq1 with heq | hlt
      · exact heq ▸ hl
      · exact h3 q hlt hq2

theorem scan_port_range_exhausted (avail : Nat → Bool) :
    ∀ fuel lo, (∀ q, lo ≤ q → q < lo + fuel → avail q = false) →
      scan_port_range avail lo fuel = none := by
  intro fuel
  induction fuel with
  | zero => intro lo _; rfl
  | succ n ih =>
    intro lo h
    have hl : avail lo = false := h lo (Nat.le_refl _) (by omega)
    simp [scan_port_range, hl]
    exact ih (lo + 1) (fun q hq1 hq2 => h q (by omega) (by omega))

theorem scan_port_range_finds (avail : Nat → Bool) :
    ∀ fuel lo q, lo ≤ q → q < lo + fuel → avail q = true →
      (scan_port_range avail lo fuel).isSome = true := by
  intro fuel
  induction fuel with
  | zero => intro lo q h1 h2 _; omega
  | succ n ih =>
    intro lo q h1 h2 hq
    by_cases hl : avail lo = true
    · simp [scan_port_range, hl]
    · rw [Bool.not_eq_true] at hl
      simp [scan_port_range, hl]
      have hne : lo ≠ q := fun he => by rw [he, hq] at hl; exact Bool.true_eq_false.mp hl
      exact ih (lo + 1) q (by omega) (by omega) hq

/-! ## Claims about port allocation -/

/-- C2: port allocation follows a deterministic preference order.  A
configured preferred port that is free is selected exactly; otherwise, when
allowed to continue (no preferred port configured, or the busy preferred port
with `allocate_port` enabled), the port recorded in the prior endpoint status
is reused when free; otherwise the fixed range 8000–65535 (upper bound
exclusive) is scanned ascending and the first free port is returned, both by
`_lookup_free_port` and, through it, by `prepare_for_start`. -/
theorem C2_port_allocation_preference_order (avail : Nat → Bool)
    (config : LocalDaemonServiceEndpointConfig) (status : ServiceEndpointStatus) :
    (∀ p, config.port = some p → p ≠ 0 → avail p = true →
        lookup_free_port avail config status = .ok p) ∧
    ((truthyNat config.port = false ∨
        (truthyBool config.allocate_port = true ∧ avail (config.port.getD 0) = false)) →
      (∀ sp, status.port = some sp → sp ≠ 0 → avail sp = true →
          lookup_free_port avail config status = .ok sp) ∧
      ((truthyNat status.port = false ∨ avail (status.port.getD 0) = false) →
        ∀ p, lookup_free_port avail config status = .ok p →
          avail p = true ∧ 8000 ≤ p ∧ p < 65535 ∧
          ∀ q, 8000 ≤ q → q < p → avail q = false)) ∧
    (∀ p, lookup_free_port avail config status = .ok p →
      prepare_for_start avail config status =
        .ok { status with protocol := config.protocol, hostname := some "localhost",
                          port := some p }) := by
  have htail_reuse : ∀ sp, status.port = some sp → sp ≠ 0 → avail sp = true →
      lookup_free_port_tail avail status = .ok sp := by
    intro sp hsp hsp0 hav
    simp [lookup_free_port_tail, truthyNat, hsp, hsp0, hav]
  have htail_scan : (truthyNat status.port = false ∨ avail (status.port.getD 0) = false) →
      ∀ p, lookup_free_port_tail avail status = .ok p →
        avail p = true ∧ 8000 ≤ p ∧ p < 65535 ∧
        ∀ q, 8000 ≤ q → q < p → avail q = false := by
    intro hst p hp
    have hcond : ¬ (truthyNat status.port = true ∧ avail (status.port.getD 0) = true) := by
      rcases hst with h | h <;> simp [h]
    rw [lookup_free_port_tail, if_neg hcond] at hp
    rcases hscan : scan_port_range avail SERVICE_PORT_RANGE.1
        (SERVICE_PORT_RANGE.2 - SERVICE_PORT_RANGE.1) with _ | q
    · rw [hscan] at hp; exact absurd hp (by simp)
    · rw [hscan] at hp
      have hq : q = p := by simpa using hp
      subst hq
      have := scan_port_range_spec avail
          (SERVICE_PORT_RANGE.2 - SERVICE_PORT_RANGE.1) SERVICE_PORT_RANGE.1 q hscan
      simp only [SERVICE_PORT_RANGE] at this
      obtain ⟨h1, h2, h3, h4⟩ := this
      exact ⟨h1, h2, by omega, h4⟩
  refine ⟨?_, ?_, ?_⟩
  · intro p hp hp0 hav
    simp [lookup_free_port, truthyNat, hp, hp0, hav]
  · intro hpre
    have hdrop : lookup_free_port avail config status = lookup_free_port_tail avail status := by
      rcases hpre with h | ⟨halloc, hbusy⟩
      · rw [lookup_free_port, if_neg (by simp [h])]
      · by_cases hc : truthyNat config.port = true
        · rw [lookup_free_port, if_pos hc, if_neg (by simp [hbusy]), if_neg (by simp [halloc])]
        · rw [lookup_free_port, if_neg hc]
    exact ⟨fun sp hsp hsp0 hav => hdrop ▸ htail_reuse sp hsp hsp0 hav,
           fun hst p hp => htail_scan hst p (hdrop ▸ hp)⟩
  · intro p hp
    have hp1 : lookup_free_port avail config
        { status with protocol := config.protocol, hostname := some "localhost" } = .ok p := hp
    simp [prepare_for_start, hp1]

/-- Witness for C2: with only port 9000 free and preferred port 9000
configured, `_lookup_free_port` selects exactly 9000. -/
theorem C2_port_allocation_preference_order_witness :
    lookup_free_port (fun p => decide (p = 9000))
      { protocol := some .tcp, port := some 9000, allocate_port := some true } { } =
      .ok 9000 :=
  (C2_port_allocation_preference_order (fun p => decide (p = 9000))
      { protocol := some .tcp, port := some 9000, allocate_port := some true } { }).1
    9000 rfl (by decide) (by decide)

/-- C3: allocation failure raises synchronously.  When the configured
preferred port is busy and `allocate_port` is disabled, `_lookup_free_port`
(hence `prepare_for_start`, hence `provision`) raises an I/O error whose
message names that busy port; when the fallback scan exhausts the range
8000–65535, it raises an I/O error whose message says no free TCP ports were
found in the range. -/
theorem C3_allocation_failure_raises (avail : Nat → Bool)
    (config : LocalDaemonServiceEndpointConfig) (status : ServiceEndpointStatus) :
    (∀ p, config.port = some p → p ≠ 0 → avail p = false →
        truthyBool config.allocate_port = false →
        lookup_free_port avail config status = .error (.portNotAvailable p) ∧
        prepare_for_start avail config status = .error (.portNotAvailable p) ∧
        (PortLookupError.portNotAvailable p).message =
          "TCP port " ++ toString p ++ " is not available.") ∧
    ((truthyNat config.port = false ∨
        (truthyBool config.allocate_port = true ∧ avail (config.port.getD 0) = false)) →
      (truthyNat status.port = false ∨ avail (status.port.getD 0) = false) →
      (∀ q, 8000 ≤ q → q < 65535 → avail q = false) →
      lookup_free_port avail config status = .error (.noFreePorts 8000 65535) ∧
      prepare_for_start avail config status = .error (.noFreePorts 8000 65535) ∧
      (PortLookupError.noFreePorts 8000 65535).message =
        "No free TCP ports found in the range %d - %d") ∧
    (∀ (w : OSWorld) (svc : LocalDaemonService) (ep : LocalDaemonServiceEndpoint)
        (e : PortLookupError),
      svc.endpoint = some ep →
      (truthyNat svc.status.pid = false ∨ w.pid_exists (svc.status.pid.getD 0) = false) →
      prepare_for_start w.avail ep.config ep.status = .error e →
      provision w svc = .error e) := by
  have hprep : ∀ e, lookup_free_port avail config
        { status with protocol := config.protocol, hostname := some "localhost" } =
          .error e →
      prepare_for_start avail config status = .error e := by
    intro e he
    simp [prepare_for_start, he]
  refine ⟨?_, ?_, ?_⟩
  · intro p hp hp0 hbusy halloc
    have hlk : lookup_free_port avail config status = .error (.portNotAvailable p) := by
      simp [lookup_free_port, truthyNat, hp, hp0, hbusy, halloc]
    exact ⟨hlk, hprep _ hlk, rfl⟩
  · intro hpre hst hall
    have hcond : ¬ (truthyNat status.port = true ∧ avail (status.port.getD 0) = true) := by
      rcases hst with h | h <;> simp [h]
    have hscan : scan_port_range avail SERVICE_PORT_RANGE.1
        (SERVICE_PORT_RANGE.2 - SERVICE_PORT_RANGE.1) = none := by
      apply scan_port_range_exhausted
      intro q hq1 hq2
      simp only [SERVICE_PORT_RANGE] at hq1 hq2
      exact hall q hq1 (by omega)
    have htail : lookup_free_port_tail avail status = .error (.noFreePorts 8000 65535) := by
      rw [lookup_free_port_tail, if_neg hcond, hscan]
      rfl
    have hlk : lookup_free_port avail config status = .error (.noFreePorts 8000 65535) := by
      rcases hpre with h | ⟨halloc, hbusy⟩
      · rw [lookup_free_port, if_neg (by simp [h])]; exact htail
      · by_cases hc : truthyNat config.port = true
        · rw [lookup_free_port, if_pos hc, if_neg (by simp [hbusy]),
            if_neg (by simp [halloc])]
          exact htail
        · rw [lookup_free_port, if_neg hc]; exact htail
    exact ⟨hlk, hprep _ hlk, rfl⟩
  · intro w svc ep e hep hdead hperr
    have hcond : ¬ (truthyNat svc.status.pid = true ∧
        w.pid_exists (svc.status.pid.getD 0) = true) := by
      rcases hdead with h | h <;> simp [h]
    rw [provision, start_daemon, if_neg hcond]
    simp [hep, hperr]

/-- Witness for C3: with every port busy and preferred port 9000 pinned with
`allocate_port` disabled, `_lookup_free_port` raises the error naming 9000. -/
theorem C3_allocation_failure_raises_witness :
    lookup_free_port (fun _ => false)
      { protocol := some .tcp, port := some 9000, allocate_port := some false } { } =
      .error (.portNotAvailable 9000) ∧
    (PortLookupError.portNotAvailable 9000).message =
      "TCP port 9000 is not available." := by
  have h := (C3_allocation_failure_raises (fun _ => false)
      { protocol := some .tcp, port := some 9000, allocate_port := some false } { }).1
    9000 rfl (by decide) rfl rfl
  exact ⟨h.1, by decide⟩

/-- C10: with no preferred port configured (`port` unset or `0`), the
`allocate_port` flag is never consulted: `_lookup_free_port` behaves exactly
as its status-reuse-then-scan tail for every value of `allocate_port`, never
raises the busy-preferred-port error, and still reuses the prior status port
or scans the range even with `allocate_port` disabled. -/
theorem C10_no_preferred_port_ignores_allocate_port (avail : Nat → Bool)
    (config : LocalDaemonServiceEndpointConfig) (status : ServiceEndpointStatus)
    (hport : truthyNat config.port = false) :
    lookup_free_port avail config status = lookup_free_port_tail avail status ∧
    (∀ flag, lookup_free_port avail { config with allocate_port := flag } status =
        lookup_free_port avail config status) ∧
    (∀ e, lookup_free_port avail config status = .error e →
        e = .noFreePorts SERVICE_PORT_RANGE.1 SERVICE_PORT_RANGE.2) ∧
    (∀ sp, status.port = some sp → sp ≠ 0 → avail sp = true →
        lookup_free_port avail config status = .ok sp) := by
  have hdrop : ∀ (cfg : LocalDaemonServiceEndpointConfig), cfg.port = config.port →
      lookup_free_port avail cfg status = lookup_free_port_tail avail status := by
    intro cfg hc
    rw [lookup_free_port, if_neg (by rw [hc]; simp [hport])]
  have h0 := hdrop config rfl
  refine ⟨h0, fun flag => by rw [hdrop { config with allocate_port := flag } rfl, h0], ?_, ?_⟩
  · intro e he
    rw [h0] at he
    rw [lookup_free_port_tail] at he
    by_cases hc : truthyNat status.port = true ∧ avail (status.port.getD 0) = true
    · rw [if_pos hc] at he; exact absurd he (by simp)
    · rw [if_neg hc] at he
      rcases hscan : scan_port_range avail SERVICE_PORT_RANGE.1
          (SERVICE_PORT_RANGE.2 - SERVICE_PORT_RANGE.1) with _ | q
      · rw [hscan] at he
        simpa using he.symm
      · rw [hscan] at he; exact absurd he (by simp)
  · intro sp hsp hsp0 hav
    rw [h0, lookup_free_port_tail, if_pos (by simp [truthyNat, hsp, hsp0, hav])]
    simp [hsp]

/-- Witness for C10: with no preferred port and `allocate_port` disabled, the
prior status port 9100 is still reused when free. -/
theorem C10_no_preferred_port_ignores_allocate_port_witness :
    lookup_free_port (fun p => decide (p = 9100))
      { protocol := some .tcp, port := none, allocate_port := some false }
      { port := some 9100 } = .ok 9100 :=
  ((C10_no_preferred_port_ignores_allocate_port (fun p => decide (p = 9100))
      { protocol := some .tcp, port := none, allocate_port := some false }
      { port := some 9100 } rfl).2.2.2) 9100 rfl (by decide) (by decide)

/-! ## Claims about the HTTP health monitor -/

/-- C8: when the endpoint status has no resolvable URI, the HTTP monitor's
`check_endpoint_status` returns `(ERROR, "No healthcheck URI available")` and
performs no network call (the world, with its request log, is returned
unchanged). -/
theorem C8_no_uri_no_network_call (w : HttpWorld)
    (config : HttpEndpointHealthMonitorConfig) (status : ServiceEndpointStatus)
    (h : truthyStr status.uri = false) :
    check_endpoint_status w config status =
      (w, ServiceState.error, some "No healthcheck URI available") := by
  have huri : get_healthcheck_uri config status = none := by
    rw [get_healthcheck_uri, if_neg (by simp [h])]
  rw [check_endpoint_status, huri]

/-- Witness for C8: a fresh endpoint status (no URI) yields the error result
with an empty request log, whatever the network would have answered. -/
theorem C8_no_uri_no_network_call_witness :
    (check_endpoint_status { respond := fun _ => HttpResult.response 200 } { } { }).2 =
      (ServiceState.error, some "No healthcheck URI available") ∧
    (check_endpoint_status { respond := fun _ => HttpResult.response 200 } { } { }).1.requests =
      [] := by
  rw [C8_no_uri_no_network_call { respond := fun _ => HttpResult.response 200 } { } { } rfl]
  exact ⟨rfl, rfl⟩

/-- C9: with a resolvable healthcheck URI, one HEAD request is logged; a
response whose status code equals the configured expected code yields
`(ACTIVE, None)`; any other status code yields `ERROR` with a message
containing that code; connection failure, timeout and other request errors
each yield `ERROR` with their own distinct message identifying the cause. -/
theorem C9_http_probe_outcomes (w : HttpWorld)
    (config : HttpEndpointHealthMonitorConfig) (status : ServiceEndpointStatus)
    (uri : String) (huri : get_healthcheck_uri config status = some uri) :
    (check_endpoint_status w config status).1.requests = w.requests ++ [uri] ∧
    (∀ code, w.respond uri = .response code →
      (some code = config.http_status_code →
        (check_endpoint_status w config status).2 = (ServiceState.active, none)) ∧
      (some code ≠ config.http_status_code →
        (check_endpoint_status w config status).2 =
          (ServiceState.error,
            some ("service endpoint healthcheck returned HTTP status code " ++
              toString code)))) ∧
    (∀ text, w.respond uri = .connectionError text →
      (check_endpoint_status w config status).2 =
        (ServiceState.error, some ("cannot connect to service API: " ++ text))) ∧
    (∀ text, w.respond uri = .timeout text →
      (check_endpoint_status w config status).2 =
        (ServiceState.error,
          some ("service API healthcheck request timed out: " ++ text))) ∧
    (∀ text, w.respond uri = .requestException text →
      (check_endpoint_status w config status).2 =
        (ServiceState.error,
          some ("unexpected error encountered while checking the service API status: " ++
            text))) := by
  refine ⟨?_, ?_, ?_, ?_, ?_⟩
  · rw [check_endpoint_status, huri]
    cases hr2 : w.respond uri with
    | response code =>
      by_cases hc : some code = config.http_status_code <;> simp [hr2, hc]
    | connectionError text => simp [hr2]
    | timeout text => simp [hr2]
    | requestException text => simp [hr2]
  · intro code hr
    constructor
    · intro hc
      rw [check_endpoint_status, huri]
      simp [hr, hc]
    · intro hc
      rw [check_endpoint_status, huri]
      simp [hr, hc]
  · intro text hr
    rw [check_endpoint_status, huri]
    simp [hr]
  · intro text hr
    rw [check_endpoint_status, huri]
    simp [hr]
  · intro text hr
    rw [check_endpoint_status, huri]
    simp [hr]

/-- Witness for C9: with status URI `http://x` and the default monitor config
(expected code 200, no subpath), a HEAD response of 200 on `http://x/` yields
`(ACTIVE, None)` and exactly that request is logged. -/
theorem C9_http_probe_outcomes_witness :
    (check_endpoint_status { respond := fun _ => HttpResult.response 200 } { }
        { uri := some "http://x" }).1.requests = ["http://x/"] ∧
    (check_endpoint_status { respond := fun _ => HttpResult.response 200 } { }
        { uri := some "http://x" }).2 = (ServiceState.active, none) := by
  have h := C9_http_probe_outcomes { respond := fun _ => HttpResult.response 200 } { }
    { uri := some "http://x" } "http://x/" (by rfl)
  exact ⟨h.1, (h.2.1 200 rfl).1 rfl⟩

/-! ## Claims about the daemon service life-cycle -/

/-- C4: `check_status` is side-effect-free: for every prior service status it
returns a (state, optional message) pair and leaves the status record,
including the `pid` field, unchanged. -/
theorem C4_check_status_side_effect_free (pid_exists : Nat → Bool)
    (status : LocalDaemonServiceStatus) :
    (check_status pid_exists status).1 = status ∧
    (check_status pid_exists status).1.pid = status.pid ∧
    check_status pid_exists status =
      (status, (check_status pid_exists status).2.1,
        (check_status pid_exists status).2.2) := by
  rw [check_status]
  by_cases h : ¬ truthyNat status.pid = true ∨ ¬ pid_exists (status.pid.getD 0) = true
  · rw [if_pos h]; exact ⟨rfl, rfl, rfl⟩
  · rw [if_neg h]; exact ⟨rfl, rfl, rfl⟩

/-- C1: the service-level status check combines process liveness and endpoint
health: when the daemon process is not alive it returns `ERROR` immediately
without probing the endpoint (the HTTP world and its request log are returned
unchanged); when the process is alive the endpoint monitor is consulted, so
an unhealthy endpoint still gives `ERROR` with the monitor's message, and
only alive-and-healthy, or alive with no endpoint, yields `ACTIVE`. -/
theorem C1_check_status_combines_liveness_and_health (pid_exists : Nat → Bool)
    (hw : HttpWorld) (svc : LocalDaemonService) :
    ((truthyNat svc.status.pid = false ∨ pid_exists (svc.status.pid.getD 0) = false) →
      service_check_status pid_exists hw svc =
        (hw, ServiceState.error, some "service daemon is not running")) ∧
    (∀ p, svc.status.pid = some p → p ≠ 0 → pid_exists p = true →
      (svc.endpoint = none →
        service_check_status pid_exists hw svc = (hw, ServiceState.active, none)) ∧
      (∀ ep, svc.endpoint = some ep →
        service_check_status pid_exists hw svc =
          check_endpoint_status hw ep.monitor ep.status ∧
        (∀ msg, (check_endpoint_status hw ep.monitor ep.status).2 =
            (ServiceState.error, some msg) →
          (service_check_status pid_exists hw svc).2 =
            (ServiceState.error, some msg)) ∧
        ((check_endpoint_status hw ep.monitor ep.status).2 =
            (ServiceState.active, none) →
          (service_check_status pid_exists hw svc).2 =
            (ServiceState.active, none)))) := by
  constructor
  · intro h
    have hcs : check_status pid_exists svc.status =
        (svc.status, ServiceState.error, some "service daemon is not running") := by
      rw [check_status, if_pos (by rcases h with h | h <;> simp [h])]
    rw [service_check_status, hcs]
  · intro p hp hp0 halive
    have hcs : check_status pid_exists svc.status =
        (svc.status, ServiceState.active, none) := by
      rw [check_status, if_neg (by simp [truthyNat, hp, hp0, halive])]
    constructor
    · intro hep
      rw [service_check_status, hcs]
      simp [hep]
    · intro ep hep
      have heq : service_check_status pid_exists hw svc =
          check_endpoint_status hw ep.monitor ep.status := by
        rw [service_check_status, hcs]
        simp [hep]
      refine ⟨heq, ?_, ?_⟩
      · intro msg hmon
        rw [heq]
        exact hmon
      · intro hmon
        rw [heq]
        exact hmon

/-- Witness for C1: with no recorded pid, the combined check reports the
daemon-not-running error without touching the HTTP world. -/
theorem C1_check_status_combines_liveness_and_health_witness :
    (service_check_status (fun _ => false)
        { respond := fun _ => HttpResult.response 200 }
        { status := { pid := none }, endpoint := none }).2 =
      (ServiceState.error, some "service daemon is not running") ∧
    (service_check_status (fun _ => false)
        { respond := fun _ => HttpResult.response 200 }
        { status := { pid := none }, endpoint := none }).1.requests = [] := by
  rw [(C1_check_status_combines_liveness_and_health (fun _ => false)
      { respond := fun _ => HttpResult.response 200 }
      { status := { pid := none }, endpoint := none }).1 (Or.inl rfl)]
  exact ⟨rfl, rfl⟩

/-- C5 counterexample: for a service whose recorded pid 5 belongs to a
currently-existing process, `deprovision` signals the process group and
leaves `pid` still set after each of two successive calls, so "calling
deprovision twice in a row leaves Status with the pid cleared both times"
fails for this service. -/
theorem C5_counterexample :
    (deprovision { pid_exists := fun p => decide (p = 5), getpgid := fun _ => 5,
                   avail := fun _ => true, next_pid := 100 }
        { status := { pid := some 5 }, endpoint := none } (some false)).2.status.pid =
      some 5 ∧
    (deprovision
        (deprovision { pid_exists := fun p => decide (p = 5), getpgid := fun _ => 5,
                       avail := fun _ => true, next_pid := 100 }
            { status := { pid := some 5 }, endpoint := none } (some false)).1
        (deprovision { pid_exists := fun p => decide (p = 5), getpgid := fun _ => 5,
                       avail := fun _ => true, next_pid := 100 }
            { status := { pid := some 5 }, endpoint := none } (some false)).2
        (some false)).2.status.pid = some 5 ∧
    some 5 ≠ (none : Option Nat) := by
  exact ⟨by decide, by decide, by decide⟩

/-- C5 (amended): `deprovision` never raises, and on an already-stopped
service (no recorded pid, or the recorded process no longer exists) each call
is a no-op that clears the stale pid: two successive calls produce no error,
send no signal, and leave `pid` cleared both times.  (When the recorded
process is still alive, the pid is instead left set after the signal is
sent — see the counterexample.) -/
theorem C5_deprovision_idempotent_when_stopped (w : OSWorld)
    (svc : LocalDaemonService) (force1 force2 : Option Bool)
    (h : truthyNat svc.status.pid = false ∨
      w.pid_exists (svc.status.pid.getD 0) = false) :
    (deprovision w svc force1).2.status.pid = none ∧
    (deprovision (deprovision w svc force1).1 (deprovision w svc force1).2
        force2).2.status.pid = none ∧
    (deprovision w svc force1).1 = w ∧
    (deprovision (deprovision w svc force1).1 (deprovision w svc force1).2
        force2).1 = w ∧
    (deprovision w svc force1).2 =
      { svc with status := { svc.status with pid := none } } ∧
    (deprovision (deprovision w svc force1).1 (deprovision w svc force1).2
        force2).2 = (deprovision w svc force1).2 := by
  have h1 : deprovision w svc force1 =
      (w, { svc with status := { svc.status with pid := none } }) := by
    rw [deprovision, stop_daemon, if_pos (by rcases h with h | h <;> simp [h])]
  have h2 : deprovision w { svc with status := { svc.status with pid := none } }
      force2 = (w, { svc with status := { svc.status with pid := none } }) := by
    rw [deprovision, stop_daemon, if_pos (by simp [truthyNat])]
  simp [h1, h2]

/-- Witness for C5 (amended): on a service whose recorded process no longer
exists, both successive deprovision calls leave the pid cleared. -/
theorem C5_deprovision_idempotent_when_stopped_witness :
    (deprovision { pid_exists := fun _ => false, getpgid := fun _ => 0,
                   avail := fun _ => true, next_pid := 1 }
        { status := { pid := some 5 }, endpoint := none } none).2.status.pid = none ∧
    (deprovision
        (deprovision { pid_exists := fun _ => false, getpgid := fun _ => 0,
                       avail := fun _ => true, next_pid := 1 }
            { status := { pid := some 5 }, endpoint := none } none).1
        (deprovision { pid_exists := fun _ => false, getpgid := fun _ => 0,
                       avail := fun _ => true, next_pid := 1 }
            { status := { pid := some 5 }, endpoint := none } none).2
        none).2.status.pid = none := by
  have h := C5_deprovision_idempotent_when_stopped
    { pid_exists := fun _ => false, getpgid := fun _ => 0,
      avail := fun _ => true, next_pid := 1 }
    { status := { pid := some 5 }, endpoint := none } none none (Or.inr rfl)
  exact ⟨h.1, h.2.1⟩

/-- C6: when the recorded pid belongs to a currently-existing process,
`_start_daemon` (hence `provision`) is a no-op that clears the stored pid,
returns the OS world unchanged (no port allocated, no process spawned) and
leaves the endpoint untouched; otherwise it runs the endpoint's
`prepare_for_start` when an endpoint exists, spawns exactly one process with
`start_new_session=True` and records the child pid in the status. -/
theorem C6_start_daemon_behaviour (w : OSWorld) (svc : LocalDaemonService) :
    (∀ p, svc.status.pid = some p → p ≠ 0 → w.pid_exists p = true →
      start_daemon w svc =
        .ok (w, { svc with status := { svc.status with pid := none } }) ∧
      provision w svc =
        .ok (w, { svc with status := { svc.status with pid := none } })) ∧
    ((truthyNat svc.status.pid = false ∨ w.pid_exists (svc.status.pid.getD 0) = false) →
      (svc.endpoint = none →
        start_daemon w svc =
          .ok ({ w with next_pid := w.next_pid + 1,
                        spawned := w.spawned ++ [⟨w.next_pid, true⟩] },
               { svc with status := { svc.status with pid := some w.next_pid } })) ∧
      (∀ ep st1, svc.endpoint = some ep →
        prepare_for_start w.avail ep.config ep.status = .ok st1 →
        start_daemon w svc =
          .ok ({ w with next_pid := w.next_pid + 1,
                        spawned := w.spawned ++ [⟨w.next_pid, true⟩] },
               { svc with endpoint := some { ep with status := st1 },
                          status := { svc.status with pid := some w.next_pid } }))) := by
  constructor
  · intro p hp hp0 halive
    have hcond : truthyNat svc.status.pid = true ∧
        w.pid_exists (svc.status.pid.getD 0) = true :=
      ⟨by simp [truthyNat, hp, hp0], by simp [hp, halive]⟩
    constructor
    · rw [start_daemon, if_pos (by simp [hcond.1, hcond.2])]
    · rw [provision, start_daemon, if_pos (by simp [hcond.1, hcond.2])]
  · intro hdead
    have hcond : ¬ (truthyNat svc.status.pid = true ∧
        w.pid_exists (svc.status.pid.getD 0) = true) := by
      rcases hdead with h | h <;> simp [h]
    constructor
    · intro hep
      rw [start_daemon, if_neg hcond]
      simp [hep]
    · intro ep st1 hep hprep
      rw [start_daemon, if_neg hcond]
      simp [hep, hprep]

/-- Witness for C6: with pid 7 recorded and process 7 existing,
`_start_daemon` clears the pid and spawns nothing. -/
theorem C6_start_daemon_behaviour_witness :
    start_daemon { pid_exists := fun p => decide (p = 7), getpgid := fun _ => 7,
                   avail := fun _ => true, next_pid := 42 }
      { status := { pid := some 7 }, endpoint := none } =
      .ok ({ pid_exists := fun p => decide (p = 7), getpgid := fun _ => 7,
             avail := fun _ => true, next_pid := 42 },
           { status := { pid := none }, endpoint := none }) :=
  ((C6_start_daemon_behaviour
      { pid_exists := fun p => decide (p = 7), getpgid := fun _ => 7,
        avail := fun _ => true, next_pid := 42 }
      { status := { pid := some 7 }, endpoint := none }).1
    7 rfl (by decide) (by decide)).1

/-- C7: when a pid is recorded and the OS reports the process as existing,
`_stop_daemon` (hence `deprovision`) resolves the process group id of the pid
and sends one signal to that whole group — `SIGINT` when `force` is falsy and
`SIGKILL` when `force` is true — and leaves the recorded pid still set. -/
theorem C7_stop_daemon_signals_process_group (w : OSWorld)
    (svc : LocalDaemonService) (force : Option Bool) (p : Nat)
    (hp : svc.status.pid = some p) (hp0 : p ≠ 0)
    (halive : w.pid_exists p = true) :
    stop_daemon w svc force =
      ({ w with signals := w.signals ++
          [(w.getpgid p,
            if truthyBool force then DaemonSignal.sigkill else DaemonSignal.sigint)] },
       svc) ∧
    (stop_daemon w svc force).2.status.pid = some p ∧
    (truthyBool force = false →
      (stop_daemon w svc force).1.signals =
        w.signals ++ [(w.getpgid p, DaemonSignal.sigint)]) ∧
    (force = some true →
      (stop_daemon w svc force).1.signals =
        w.signals ++ [(w.getpgid p, DaemonSignal.sigkill)]) ∧
    deprovision w svc force = stop_daemon w svc force := by
  have hcond : ¬ (¬ truthyNat svc.status.pid = true ∨
      ¬ w.pid_exists (svc.status.pid.getD 0) = true) := by
    simp [truthyNat, hp, hp0, halive]
  have h1 : stop_daemon w svc force =
      ({ w with signals := w.signals ++
          [(w.getpgid p,
            if truthyBool force then DaemonSignal.sigkill else DaemonSignal.sigint)] },
       svc) := by
    rw [stop_daemon, if_neg hcond]
    simp [hp]
  refine ⟨h1, by rw [h1]; exact hp, ?_, ?_, rfl⟩
  · intro hforce
    rw [h1]
    simp [hforce]
  · intro hforce
    rw [h1]
    simp [hforce, truthyBool]

/-- Witness for C7: with pid 9 alive in process group 90, a forced stop sends
`SIGKILL` to group 90 and leaves pid 9 recorded. -/
theorem C7_stop_daemon_signals_process_group_witness :
    (stop_daemon { pid_exists := fun p => decide (p = 9), getpgid := fun _ => 90,
                   avail := fun _ => true, next_pid := 1 }
        { status := { pid := some 9 }, endpoint := none } (some true)).1.signals =
      [(90, DaemonSignal.sigkill)] ∧
    (stop_daemon { pid_exists := fun p => decide (p = 9), getpgid := fun _ => 90,
                   avail := fun _ => true, next_pid := 1 }
        { status := { pid := some 9 }, endpoint := none } (some true)).2.status.pid =
      some 9 := by
  have h := C7_stop_daemon_signals_process_group
    { pid_exists := fun p => decide (p = 9), getpgid := fun _ => 90,
      avail := fun _ => true, next_pid := 1 }
    { status := { pid := some 9 }, endpoint := none } (some true) 9
    rfl (by decide) (by decide)
  exact ⟨h.2.2.2.1 rfl, h.2.1⟩

end ZenmlLocal
